import Mathlib

/-!
Shallow embedding of `src/multiComplex.js` (multiComplexViewer) and proofs
about its track-construction, validation and layout-settings code.

Conventions of the embedding:
* JavaScript objects created with `Object.create(null)` and indexed by
  protein names are modelled as insertion-ordered association lists
  (`OMap`), matching `for…in` enumeration order for non-index string keys.
* `Array.prototype.sort` with a numeric comparator is a stable sort; it is
  modelled with `List.insertionSort` over the corresponding total preorder.
* JavaScript numbers appearing in the layout computation are modelled by
  `JSNum`: a rational together with the three non-finite values
  `Infinity`, `-Infinity` and `NaN` (`undefined` entering arithmetic is
  coerced to `NaN`, as in JavaScript).
* Functions that `throw` are modelled with `Except String`.
-/

namespace MultiComplex

/-- Insertion-ordered association list with string keys, modelling a
JavaScript object created with `Object.create(null)` whose keys are protein
names (non-index string keys, for which `for…in` follows insertion order). -/
abbrev OMap (α : Type) : Type := List (String × α)

namespace OMap

variable {α : Type}

/-- Property read `m[k]`: the value stored at key `k`, if present. -/
def find? : OMap α → String → Option α
  | [], _ => none
  | (k, v) :: m, q => if k = q then some v else find? m q

/-- Membership test, modelling `m.hasOwnProperty(k)` / truthiness of `m[k]`. -/
def contains (m : OMap α) (q : String) : Bool :=
  (find? m q).isSome

/-- Property write `m[k] = v`: updates in place if the key exists, otherwise
appends the new key at the end (JavaScript insertion order). -/
def set : OMap α → String → α → OMap α
  | [], q, v => [(q, v)]
  | (k, w) :: m, q, v => if k = q then (k, v) :: m else (k, w) :: set m q v

/-- Property deletion `delete m[k]`. -/
def erase : OMap α → String → OMap α
  | [], _ => []
  | (k, w) :: m, q => if k = q then m else (k, w) :: erase m q

/-- Enumeration order of the keys, as visited by `for…in`. -/
def keys (m : OMap α) : List String :=
  m.map Prod.fst

end OMap

/-- One interaction event, after the configured columns have been resolved:
`proteinA`/`proteinB` are the two participants and `timePoint` the coerced
numeric value of the order column. -/
structure InteractionEvent where
  proteinA : String
  proteinB : String
  timePoint : Int
deriving DecidableEq

/-- One entry of the module-level `trackCounts` object:
`{trackCount: …, interactions: {partner: timePoint, …}}`. -/
structure TrackRec where
  trackCount : Int
  interactions : OMap Int
deriving DecidableEq

/-- The module-level `trackCounts` object: protein name to its record. -/
abbrev TrackCounts := OMap TrackRec

/-- One element of the module-level `tracks` array, as pushed by
`getTracks`: the protein and its interaction list in partner-map order. -/
structure Track where
  protein : String
  interactions : List (String × Int)
deriving DecidableEq

/-- The configuration fields of `multiComplex.config` that the embedded
functions consult.  Optional numeric fields are `none` when the source holds
`null`; JavaScript truthiness of such a field is `jsTruthyQ`. -/
structure Config where
  timePointColumn : String
  proteinAColumn : String
  proteinBColumn : String
  minimumInteractionCount : Int
  removeDuplicateInteractions : String
  screenProportion : Rat
  outerWidth : Option Rat
  outerHeight : Option Rat
  xRatio : Option Rat
  yRatio : Option Rat
deriving DecidableEq

/-- The default configuration object of the source module. -/
def defaultConfig : Config where
  timePointColumn := "Order"
  proteinAColumn := "Protein A"
  proteinBColumn := "Protein B"
  minimumInteractionCount := 3
  removeDuplicateInteractions := "false"
  screenProportion := 7/10
  outerWidth := none
  outerHeight := none
  xRatio := none
  yRatio := none

/-- Total preorder behind the event comparator
`(a, b) => (+a[tp]) - (+b[tp])`: `a` may stay before `b` when the comparator
is not positive. -/
def eventLe (a b : InteractionEvent) : Prop :=
  a.timePoint ≤ b.timePoint

instance : DecidableRel eventLe :=
  fun a b => inferInstanceAs (Decidable (a.timePoint ≤ b.timePoint))

instance : IsTotal InteractionEvent eventLe :=
  ⟨fun a b => Int.le_total a.timePoint b.timePoint⟩

instance : IsTrans InteractionEvent eventLe :=
  ⟨fun _ _ _ h1 h2 => le_trans h1 h2⟩

/-- Sorting step of `buildTrackCounts`:
`interactionEvents.sort((a, b) => (+a[tp]) - (+b[tp]))`, a stable ascending
sort on the time point (ECMAScript `Array.prototype.sort` is stable, and a
stable sort under a total preorder comparator is unique, so insertion sort
is an exact model). -/
def sortEvents (events : List InteractionEvent) : List InteractionEvent :=
  List.insertionSort eventLe events

/-- The source function `addTrackCount(p1, p2, timePoint)`: increments the
existing record count (or creates a fresh record with count `1`) and then
stores `interactions[p2] = timePoint` unconditionally. -/
def addTrackCount (tc : TrackCounts) (p1 p2 : String) (t : Int) : TrackCounts :=
  match tc.find? p1 with
  | some r => tc.set p1 ⟨r.trackCount + 1, r.interactions.set p2 t⟩
  | none => tc.set p1 ⟨1, OMap.set [] p2 t⟩

/-- The body of the event loop of `buildTrackCounts`: both sides of the
event are recorded, protein A first. -/
def processEvent (tc : TrackCounts) (e : InteractionEvent) : TrackCounts :=
  addTrackCount (addTrackCount tc e.proteinA e.proteinB e.timePoint)
    e.proteinB e.proteinA e.timePoint

/-- The event loop of `buildTrackCounts`, run on already-sorted events. -/
def processEvents (events : List InteractionEvent) : TrackCounts :=
  events.foldl processEvent []

/-- The source function `removeDuplicateInteraction(proteinA, proteinB)`:
when A's live count is strictly below B's, B is deleted from A's partner map
and A's count decremented.  The call sites guarantee both records exist; the
embedding returns the state unchanged otherwise. -/
def removeDuplicateInteraction (tc : TrackCounts) (pA pB : String) : TrackCounts :=
  match tc.find? pA, tc.find? pB with
  | some ra, some rb =>
    if ra.trackCount < rb.trackCount then
      tc.set pA ⟨ra.trackCount - 1, ra.interactions.erase pB⟩
    else
      tc
  | _, _ => tc

/-- Inner loop of `removeDuplicateInteractions`: iterate over the partner
keys of `pA` (the loop may delete only the key it is currently visiting, so
iterating the snapshot key list coincides with the live `for…in`), checking
`trackCounts.hasOwnProperty(proteinB)` against the live state. -/
def removeDupForProtein (tc : TrackCounts) (pA : String) : TrackCounts :=
  match tc.find? pA with
  | some ra =>
    ra.interactions.foldl
      (fun acc kv =>
        if acc.contains kv.1 then removeDuplicateInteraction acc pA kv.1 else acc)
      tc
  | none => tc

/-- The source function `removeDuplicateInteractions()`: the outer `for…in`
over all participants (no participant is added or deleted during the pass,
so the snapshot key list coincides with the live enumeration). -/
def removeDuplicateInteractionsPass (tc : TrackCounts) : TrackCounts :=
  (OMap.keys tc).foldl removeDupForProtein tc

/-- The loop `for (protein in trackCounts) removeSmallerTrackCounts(protein)`:
every record whose `trackCount` is below the configured minimum is deleted. -/
def removeSmallerTrackCounts (tc : TrackCounts) (minCount : Int) : TrackCounts :=
  tc.filter (fun kv => !decide (kv.2.trackCount < minCount))

/-- The source function `buildTrackCounts()`, from raw events to the
filtered `trackCounts` object. -/
def buildTrackCounts (events : List InteractionEvent) (cfg : Config) : TrackCounts :=
  let tc := processEvents (sortEvents events)
  let tc2 :=
    if cfg.removeDuplicateInteractions = "true" then
      removeDuplicateInteractionsPass tc
    else
      tc
  removeSmallerTrackCounts tc2 cfg.minimumInteractionCount

/-- The source function `getTrackInteractions`: the partner map flattened to
`{protein, timePoint}` pairs in key order, which is the list itself. -/
def getTrackInteractions (m : OMap Int) : List (String × Int) :=
  m

/-- The track list before sorting, as pushed by the loop in `getTracks`. -/
def pushedTracks (tc : TrackCounts) : List Track :=
  tc.map (fun kv => ⟨kv.1, getTrackInteractions kv.2.interactions⟩)

/-- Total preorder behind the track comparator
`(a, b) => b.interactions.length - a.interactions.length`: `a` may stay
before `b` when `b` has at most as many interactions. -/
def trackGe (a b : Track) : Prop :=
  b.interactions.length ≤ a.interactions.length

instance : DecidableRel trackGe :=
  fun a b => inferInstanceAs (Decidable (b.interactions.length ≤ a.interactions.length))

instance : IsTotal Track trackGe :=
  ⟨fun a b => Nat.le_total b.interactions.length a.interactions.length⟩

instance : IsTrans Track trackGe :=
  ⟨fun _ _ _ h1 h2 => le_trans h2 h1⟩

/-- The source function `getTracks()`: push one track per surviving protein
and sort with the stable comparator
`(a, b) => b.interactions.length - a.interactions.length` (descending). -/
def getTracks (tc : TrackCounts) : List Track :=
  List.insertionSort trackGe (pushedTracks tc)

/-- The source function `convertInteractionEventsToTracks()`. -/
def convertInteractionEventsToTracks (events : List InteractionEvent) (cfg : Config) :
    List Track :=
  getTracks (buildTrackCounts events cfg)

/-- Observed count of a participant: `trackCounts[p].trackCount`, `0` when
the record is absent. -/
def trackCountOf (tc : TrackCounts) (p : String) : Int :=
  match tc.find? p with
  | some r => r.trackCount
  | none => 0

/-- Number of event sides naming `p`: how many times `addTrackCount` is
called with `p` as its first argument while processing `events`. -/
def occurrenceCount (p : String) (events : List InteractionEvent) : Nat :=
  events.countP (fun e => decide (e.proteinA = p)) +
    events.countP (fun e => decide (e.proteinB = p))

/-- Participants in order of first appearance while the event loop runs:
extends the list with a name the first time it is seen. -/
def insertFirstSeen (l : List String) (p : String) : List String :=
  if p ∈ l then l else l ++ [p]

/-- First-seen participant order of an event list (protein A of an event
before its protein B, as `buildTrackCounts` records them). -/
def firstSeenOrder (events : List InteractionEvent) : List String :=
  events.foldl (fun l e => insertFirstSeen (insertFirstSeen l e.proteinA) e.proteinB) []

/-- JavaScript number as the layout computation sees it: a (here always
representable) rational, or one of the non-finite values.  `undefined`
entering arithmetic is coerced to `nan`. -/
inductive JSNum : Type where
  | num : Rat → JSNum
  | posInf : JSNum
  | negInf : JSNum
  | nan : JSNum
deriving DecidableEq

namespace JSNum

/-- Unary minus. -/
def neg : JSNum → JSNum
  | num a => num (-a)
  | posInf => negInf
  | negInf => posInf
  | nan => nan

/-- Addition, IEEE-754 style on the values this program can produce. -/
def add : JSNum → JSNum → JSNum
  | nan, _ => nan
  | _, nan => nan
  | num a, num b => num (a + b)
  | num _, posInf => posInf
  | num _, negInf => negInf
  | posInf, num _ => posInf
  | negInf, num _ => negInf
  | posInf, posInf => posInf
  | negInf, negInf => negInf
  | posInf, negInf => nan
  | negInf, posInf => nan

/-- Subtraction: `a - b = a + (-b)`. -/
def sub (a b : JSNum) : JSNum :=
  add a (neg b)

/-- Multiplication; `0 * Infinity` is `NaN`. -/
def mul : JSNum → JSNum → JSNum
  | nan, _ => nan
  | _, nan => nan
  | num a, num b => num (a * b)
  | num a, posInf => if 0 < a then posInf else if a < 0 then negInf else nan
  | num a, negInf => if 0 < a then negInf else if a < 0 then posInf else nan
  | posInf, num a => if 0 < a then posInf else if a < 0 then negInf else nan
  | negInf, num a => if 0 < a then negInf else if a < 0 then posInf else nan
  | posInf, posInf => posInf
  | posInf, negInf => negInf
  | negInf, posInf => negInf
  | negInf, negInf => posInf

/-- Division; a nonzero finite value divided by zero gives a signed
infinity, `0 / 0` gives `NaN` (the embedding has no negative zero). -/
def div : JSNum → JSNum → JSNum
  | nan, _ => nan
  | _, nan => nan
  | num a, num b =>
    if b = 0 then (if a = 0 then nan else if 0 < a then posInf else negInf)
    else num (a / b)
  | num _, posInf => num 0
  | num _, negInf => num 0
  | posInf, num b => if 0 ≤ b then posInf else negInf
  | negInf, num b => if 0 ≤ b then negInf else posInf
  | posInf, _ => nan
  | negInf, _ => nan

/-- `Math.round` on a finite rational: half-way cases round up. -/
def roundQ (q : Rat) : Rat :=
  ((⌊q + 1/2⌋ : Int) : Rat)

/-- `Math.round`, fixed on non-finite inputs. -/
def round : JSNum → JSNum
  | num q => num (roundQ q)
  | posInf => posInf
  | negInf => negInf
  | nan => nan

/-- `Math.min` of two arguments: `NaN` wins, otherwise the smaller value. -/
def minJS : JSNum → JSNum → JSNum
  | nan, _ => nan
  | _, nan => nan
  | num a, num b => num (Min.min a b)
  | negInf, _ => negInf
  | _, negInf => negInf
  | posInf, b => b
  | a, posInf => a

/-- JavaScript `a > q` against a finite number `q`; false for `NaN`. -/
def gtQ (a : JSNum) (q : Rat) : Bool :=
  match a with
  | num b => decide (q < b)
  | posInf => true
  | negInf => false
  | nan => false

end JSNum

/-- JavaScript truthiness of a possibly-`null` numeric configuration field:
`null` and `0` are falsy. -/
def jsTruthyQ : Option Rat → Bool
  | none => false
  | some q => !decide (q = 0)

/-- The numeric value of a configuration field known to be present. -/
def optNum : Option Rat → JSNum
  | some q => JSNum.num q
  | none => JSNum.nan

/-- Margins of the canvas, in px. -/
structure Margin where
  left : JSNum
  top : JSNum
  right : JSNum
  bottom : JSNum
deriving DecidableEq

/-- The module-level `settings` object.  The fields `yLabelOffset`,
`xLabelOffset`, `innerWidth` and `innerHeight` are created by
`generateSettings`; they start at `0` here. -/
structure Settings where
  maxTrackNameLength : Nat
  outerWidth : JSNum
  outerHeight : JSNum
  trackStrokeWidth : JSNum
  interactionPointRadius : JSNum
  trackLabelWidth : JSNum
  interactionLabelHeight : JSNum
  fontHeightWidthRatio : Rat
  xRatio : JSNum
  yRatio : JSNum
  margin : Margin
  yLabelOffset : JSNum
  xLabelOffset : JSNum
  innerWidth : JSNum
  innerHeight : JSNum
deriving DecidableEq

/-- The initial value of the module-level `settings` object. -/
def initialSettings : Settings where
  maxTrackNameLength := 0
  outerWidth := JSNum.num 0
  outerHeight := JSNum.num 0
  trackStrokeWidth := JSNum.num 0
  interactionPointRadius := JSNum.num 0
  trackLabelWidth := JSNum.num 0
  interactionLabelHeight := JSNum.num 0
  fontHeightWidthRatio := 2
  xRatio := JSNum.num 0
  yRatio := JSNum.num 0
  margin := ⟨JSNum.num 0, JSNum.num 0, JSNum.num 0, JSNum.num 0⟩
  yLabelOffset := JSNum.num 0
  xLabelOffset := JSNum.num 0
  innerWidth := JSNum.num 0
  innerHeight := JSNum.num 0

/-- Viewport size as returned by `getScreenDimensions` (already net of the
scrollbar allowance). -/
structure ScreenDimensions where
  width : Rat
  height : Rat
deriving DecidableEq

/-- Largest time point over all tracks:
`d3.max(tracks, d => d3.max(d.interactions, i => i.timePoint))`; `none`
models the `undefined` that `d3.max` returns on an empty selection. -/
def getTimePointSpanMax (tracks : List Track) : Option Int :=
  (tracks.filterMap (fun t => (t.interactions.map Prod.snd).max?)).max?

/-- Smallest time point over all tracks (the other half of `xSpan`). -/
def getTimePointSpanMin (tracks : List Track) : Option Int :=
  (tracks.filterMap (fun t => (t.interactions.map Prod.snd).min?)).min?

/-- The value `xSpan[1]` as a number: `undefined` coerces to `NaN`. -/
def maxTimePointNum (tracks : List Track) : JSNum :=
  match getTimePointSpanMax tracks with
  | some v => JSNum.num v
  | none => JSNum.nan

/-- The source function `getYRatio()`:
`(width / maxTrack) / (height / maxTimePoint)` clamped by
`screenProportion`. -/
def getYRatio (tracks : List Track) (dims : ScreenDimensions) (sp : Rat) : JSNum :=
  let r := JSNum.div (JSNum.div (JSNum.num dims.width) (JSNum.num tracks.length))
    (JSNum.div (JSNum.num dims.height) (maxTimePointNum tracks))
  if r.gtQ 1 then JSNum.num sp else JSNum.mul r (JSNum.num sp)

/-- The source function `getXRatio()`; its body is literally the same
formula as `getYRatio` (both use `width / maxTrack` over
`height / maxTimePoint`). -/
def getXRatio (tracks : List Track) (dims : ScreenDimensions) (sp : Rat) : JSNum :=
  let r := JSNum.div (JSNum.div (JSNum.num dims.width) (JSNum.num tracks.length))
    (JSNum.div (JSNum.num dims.height) (maxTimePointNum tracks))
  if r.gtQ 1 then JSNum.num sp else JSNum.mul r (JSNum.num sp)

/-- The value `settings.yRatio` computed by `generateSettings`. -/
def computedYRatio (tracks : List Track) (cfg : Config) (dims : ScreenDimensions) : JSNum :=
  if jsTruthyQ cfg.yRatio then
    JSNum.mul (optNum cfg.yRatio) (JSNum.num cfg.screenProportion)
  else
    getYRatio tracks dims cfg.screenProportion

/-- The value `settings.xRatio` computed by `generateSettings`. -/
def computedXRatio (tracks : List Track) (cfg : Config) (dims : ScreenDimensions) : JSNum :=
  if jsTruthyQ cfg.xRatio then
    JSNum.mul (optNum cfg.xRatio) (JSNum.num cfg.screenProportion)
  else
    getXRatio tracks dims cfg.screenProportion

/-- The value `settings.outerHeight` computed by `generateSettings`. -/
def computedOuterHeight (tracks : List Track) (cfg : Config) (dims : ScreenDimensions) : JSNum :=
  if jsTruthyQ cfg.outerHeight then
    optNum cfg.outerHeight
  else
    JSNum.mul (JSNum.num dims.height) (computedYRatio tracks cfg dims)

/-- The value `settings.outerWidth` computed by `generateSettings`. -/
def computedOuterWidth (tracks : List Track) (cfg : Config) (dims : ScreenDimensions) : JSNum :=
  if jsTruthyQ cfg.outerWidth then
    optNum cfg.outerWidth
  else
    JSNum.mul (JSNum.num dims.width) (computedXRatio tracks cfg dims)

/-- The source function `generateSettings()`, as a pure function of the
track list, configuration, viewport size and previous settings (which carry
`maxTrackNameLength` and `fontHeightWidthRatio` into the computation). -/
def generateSettings (tracks : List Track) (cfg : Config) (dims : ScreenDimensions)
    (s : Settings) : Settings :=
  let maxTimePoint := maxTimePointNum tracks
  let maxTrack : JSNum := JSNum.num tracks.length
  let oH := computedOuterHeight tracks cfg dims
  let oW := computedOuterWidth tracks cfg dims
  let tsw := JSNum.minJS
    (JSNum.round (JSNum.div oW (JSNum.mul maxTimePoint (JSNum.num 5))))
    (JSNum.round (JSNum.div oH (JSNum.mul maxTrack (JSNum.num 8))))
  let radius := tsw
  let labelHeight := JSNum.mul radius (JSNum.num (3/2))
  let labelWidth := JSNum.div (JSNum.mul labelHeight (JSNum.num s.maxTrackNameLength))
    (JSNum.num s.fontHeightWidthRatio)
  let yOff := JSNum.add radius (JSNum.mul labelHeight (JSNum.num (6/5)))
  let xOff := JSNum.add (JSNum.mul (JSNum.num 2) radius) labelWidth
  let marginLeft := JSNum.add xOff (JSNum.mul radius (JSNum.num 2))
  let marginOther := JSNum.mul radius (JSNum.num 2)
  { s with
    yRatio := computedYRatio tracks cfg dims
    xRatio := computedXRatio tracks cfg dims
    outerHeight := oH
    outerWidth := oW
    trackStrokeWidth := tsw
    interactionPointRadius := radius
    interactionLabelHeight := labelHeight
    trackLabelWidth := labelWidth
    yLabelOffset := yOff
    xLabelOffset := xOff
    margin := ⟨marginLeft, marginOther, marginOther, marginOther⟩
    innerWidth := JSNum.sub (JSNum.sub oW marginLeft) marginOther
    innerHeight := JSNum.sub (JSNum.sub oH marginOther) marginOther }

/-- One raw data row, keyed by column name. -/
abbrev Row := OMap String

/-- JavaScript truthiness of a row field: a missing column (`undefined`)
and the empty string are falsy, every other string is truthy. -/
def jsTruthyStr : Option String → Bool
  | none => false
  | some s => !decide (s = "")

/-- The source function `validateEventData(data)`: throws unless the row
list is non-empty and the first row is truthy under all three configured
column names; on success the data is passed on unchanged. -/
def validateEventData (cfg : Config) (data : List Row) : Except String (List Row) :=
  match data with
  | [] => Except.error "Data loaded does not match config settings"
  | r0 :: _ =>
    if jsTruthyStr (r0.find? cfg.timePointColumn)
        && jsTruthyStr (r0.find? cfg.proteinAColumn)
        && jsTruthyStr (r0.find? cfg.proteinBColumn) then
      Except.ok data
    else
      Except.error "Data loaded does not match config settings"

/-- Check `0 < v && v <= 1` on a possibly-`null` ratio; with `null` the
JavaScript comparison `null > 0` is false. -/
def ratioInRange : Option Rat → Bool
  | none => false
  | some q => decide (0 < q) && decide (q ≤ 1)

/-- JavaScript `!v` on a possibly-`null` numeric field. -/
def optFalsy (x : Option Rat) : Bool :=
  !jsTruthyQ x

/-- Check `v > 0` on a possibly-`null` field. -/
def optPositive : Option Rat → Bool
  | none => false
  | some q => decide (0 < q)

/-- The source function `validateConfig()`.  The string comparison
`s > ""` holds exactly for non-empty `s`; `selectorEmpty` models
`d3.select(config.selector).empty()`. -/
def validateConfig (cfg : Config) (selectorEmpty : Bool) : Except String Unit :=
  if !(decide (0 < cfg.screenProportion) && decide (cfg.screenProportion ≤ 1)) then
    Except.error "Config screenProportion settings are invalid"
  else if !(ratioInRange cfg.xRatio || optFalsy cfg.xRatio || optPositive cfg.outerWidth) then
    Except.error "Config Width settings are invalid"
  else if !(ratioInRange cfg.yRatio || optFalsy cfg.yRatio || optPositive cfg.outerHeight) then
    Except.error "Config Height settings are invalid"
  else if !decide (1 ≤ cfg.minimumInteractionCount) then
    Except.error "Config minimumInteractionCount settings are invalid"
  else if !(!decide (cfg.timePointColumn = "") && !decide (cfg.proteinAColumn = "")
      && !decide (cfg.proteinBColumn = "")) then
    Except.error "Config import column settings are invalid"
  else if selectorEmpty then
    Except.error "Config selector settings are invalid"
  else
    Except.ok ()

/-- The module-level mutable state that `clear()` touches, plus `settings`.
DOM handles (`canvasArea`, `graphArea`) and the d3 scales are modelled by
presence flags; `xSpan`/`ySpan` by their optional values. -/
structure ModuleState where
  canvasArea : Bool
  graphArea : Bool
  interactionEvents : List Row
  trackCounts : TrackCounts
  tracks : List Track
  xSpan : Option (Option Int × Option Int)
  ySpan : Option (Int × Nat)
  xScale : Bool
  yScale : Bool
  settings : Settings
deriving DecidableEq

/-- The source function `clear()`: resets every listed module variable and
never touches `settings`. -/
def clear (st : ModuleState) : ModuleState :=
  { st with
    canvasArea := false
    graphArea := false
    interactionEvents := []
    trackCounts := []
    tracks := []
    xSpan := none
    ySpan := none
    xScale := false
    yScale := false }

/-- The source function `setMaxProteinNameLength(protein)`: raises
`settings.maxTrackNameLength` to the protein's length when longer. -/
def setMaxProteinNameLength (s : Settings) (protein : String) : Settings :=
  if s.maxTrackNameLength < protein.length then
    { s with maxTrackNameLength := protein.length }
  else
    s

/-- The updates `addTrackCount` makes to `settings` while the event loop of
`buildTrackCounts` runs: one `setMaxProteinNameLength` call per event side,
protein A first. -/
def recordNameLengths (s : Settings) (events : List InteractionEvent) : Settings :=
  events.foldl
    (fun acc e => setMaxProteinNameLength (setMaxProteinNameLength acc e.proteinA) e.proteinB)
    s

/-! Concrete inputs used by counterexamples, scenarios and witnesses. -/

/-- Two events of the same protein pair at orders 1 and 2. -/
def evs1 : List InteractionEvent :=
  [⟨"A", "B", 1⟩, ⟨"A", "B", 2⟩]

/-- Default configuration with threshold 1 and duplicates kept. -/
def cfg1 : Config :=
  { defaultConfig with minimumInteractionCount := 1 }

/-- Three events of the same protein pair at orders 1, 2 and 3. -/
def evs2 : List InteractionEvent :=
  [⟨"A", "B", 1⟩, ⟨"A", "B", 2⟩, ⟨"A", "B", 3⟩]

/-- Scenario C input: `X` has five distinct partners (one of them `Y`), `Y`
has two (`X` and `Z`). -/
def evsC : List InteractionEvent :=
  [⟨"X", "A", 1⟩, ⟨"X", "B", 2⟩, ⟨"X", "C", 3⟩, ⟨"X", "D", 4⟩, ⟨"X", "Y", 5⟩, ⟨"Y", "Z", 6⟩]

/-- Scenario A/B input events. -/
def evsB : List InteractionEvent :=
  [⟨"P1", "P2", 1⟩, ⟨"P1", "P3", 2⟩, ⟨"P1", "P4", 3⟩, ⟨"P2", "P3", 3⟩]

/-- Scenario B configuration: threshold 1. -/
def cfgB : Config :=
  { defaultConfig with minimumInteractionCount := 1 }

/-- Scenario B expected output: `P1` (degree 3) first, then `P2` and `P3`
(degree 2, first-seen order), then `P4` (degree 1). -/
def expectedTracksB : List Track :=
  [⟨"P1", [("P2", 1), ("P3", 2), ("P4", 3)]⟩,
   ⟨"P2", [("P1", 1), ("P3", 3)]⟩,
   ⟨"P3", [("P1", 2), ("P2", 3)]⟩,
   ⟨"P4", [("P1", 3)]⟩]

/-- A fixed viewport for concrete layout evaluations. -/
def sampleDims : ScreenDimensions :=
  ⟨1280, 720⟩

/-- A single event: with the default threshold 3 no participant survives. -/
def evs6 : List InteractionEvent :=
  [⟨"A", "B", 1⟩]

/-- A concrete track list with two interaction points. -/
def tracksW : List Track :=
  [⟨"P1", [("P2", 1), ("P3", 2)]⟩]

/-- Configuration with explicit outer-dimension overrides. -/
def cfgW : Config :=
  { defaultConfig with outerWidth := some 500, outerHeight := some 300 }

/-- A first row whose three configured columns are all present but whose
"Protein A" value is the empty string. -/
def row7 : Row :=
  [("Order", "1"), ("Protein A", ""), ("Protein B", "P2")]

/-- A configuration whose `xRatio` is far outside `(0, 1]` while
`outerWidth` is positive. -/
def cfg8 : Config :=
  { defaultConfig with xRatio := some 5, outerWidth := some 100 }

/-- First draw cycle input: a participant with an 11-character name. -/
def evsLong : List InteractionEvent :=
  [⟨"LONGPROTEIN", "B", 1⟩]

/-- Second draw cycle input: all names one character long. -/
def evsShort : List InteractionEvent :=
  [⟨"A", "B", 1⟩]

/-- Threshold-1 configuration with explicit outer dimensions, for the
second draw cycle of the `clear` scenario. -/
def cfg1b : Config :=
  { defaultConfig with
    minimumInteractionCount := 1
    outerWidth := some 500
    outerHeight := some 300 }

/-- Tracks of the second draw cycle. -/
def tracks2 : List Track :=
  convertInteractionEventsToTracks evsShort cfg1b

/-- A fully-populated module state carrying the given settings. -/
def sampleState (s : Settings) : ModuleState :=
  ⟨true, true, [], [], [], none, none, true, true, s⟩

/-! Helper lemmas about the ordered-map embedding. -/

theorem OMap.find?_set {α : Type} (m : OMap α) (k q : String) (v : α) :
    (m.set k v).find? q = if k = q then some v else m.find? q := by
  induction m with
  | nil => simp [OMap.set, OMap.find?]
  | cons kv m ih =>
    obtain ⟨k1, v1⟩ := kv
    simp only [OMap.set]
    by_cases h1 : k1 = k
    · subst h1
      simp only [if_pos rfl, OMap.find?]
      split_ifs <;> rfl
    · simp only [if_neg h1, OMap.find?, ih]
      by_cases h2 : k1 = q
      · subst h2
        have h3 : ¬(k = k1) := fun h => h1 h.symm
        simp [h3]
      · simp [h2]

theorem OMap.mem_of_find? {α : Type} {m : OMap α} {q : String} {v : α}
    (h : m.find? q = some v) : (q, v) ∈ m := by
  induction m with
  | nil => simp [OMap.find?] at h
  | cons kv m ih =>
    obtain ⟨k1, v1⟩ := kv
    simp only [OMap.find?] at h
    by_cases h1 : k1 = q
    · rw [if_pos h1] at h
      injection h with h2
      subst h1; subst h2
      exact List.mem_cons_self _ _
    · rw [if_neg h1] at h
      exact List.mem_cons_of_mem _ (ih h)

theorem OMap.contains_iff {α : Type} {m : OMap α} {q : String} :
    m.contains q = true ↔ q ∈ m.keys := by
  induction m with
  | nil => simp [OMap.contains, OMap.find?, OMap.keys]
  | cons kv m ih =>
    obtain ⟨k1, v1⟩ := kv
    simp only [OMap.contains, OMap.find?, OMap.keys, List.map_cons, List.mem_cons]
    by_cases h1 : k1 = q
    · simp [h1]
    · have h2 : ¬(q = k1) := fun h => h1 h.symm
      simp only [if_neg h1, h2, false_or]
      exact ih

theorem OMap.find?_eq_none {α : Type} {m : OMap α} {q : String}
    (h : q ∉ m.keys) : m.find? q = none := by
  cases hf : m.find? q with
  | none => rfl
  | some v => exact absurd (OMap.contains_iff.mp (by simp [OMap.contains, hf])) h

theorem OMap.keys_set {α : Type} (m : OMap α) (k : String) (v : α) :
    (m.set k v).keys = if k ∈ m.keys then m.keys else m.keys ++ [k] := by
  induction m with
  | nil => simp [OMap.set, OMap.keys]
  | cons kv m ih =>
    obtain ⟨k1, v1⟩ := kv
    simp only [OMap.set, OMap.keys, List.map_cons, List.mem_cons]
    by_cases h1 : k1 = k
    · subst h1
      simp
    · have h2 : ¬(k = k1) := fun h => h1 h.symm
      simp only [if_neg h1, List.map_cons, h2, false_or]
      have ih2 : (OMap.set m k v).map Prod.fst
          = if k ∈ m.map Prod.fst then m.map Prod.fst else m.map Prod.fst ++ [k] := ih
      rw [ih2]
      split_ifs <;> simp

theorem OMap.nodup_keys_set {α : Type} {m : OMap α} {k : String} (v : α)
    (h : m.keys.Nodup) : ((m.set k v).keys).Nodup := by
  rw [OMap.keys_set]
  split_ifs with hmem
  · exact h
  · simpa [List.nodup_append] using ⟨h, hmem⟩

theorem OMap.find?_erase_self {α : Type} {m : OMap α} {k : String}
    (h : m.keys.Nodup) : (m.erase k).find? k = none := by
  induction m with
  | nil => simp [OMap.erase, OMap.find?]
  | cons kv m ih =>
    obtain ⟨k1, v1⟩ := kv
    simp only [OMap.keys, List.map_cons, List.nodup_cons] at h
    simp only [OMap.erase]
    by_cases h1 : k1 = k
    · subst h1
      rw [if_pos rfl]
      exact OMap.find?_eq_none h.1
    · rw [if_neg h1, OMap.find?, if_neg h1]
      exact ih h.2

theorem OMap.find?_erase_other {α : Type} (m : OMap α) {k q : String}
    (h : k ≠ q) : (m.erase k).find? q = m.find? q := by
  induction m with
  | nil => simp [OMap.erase]
  | cons kv m ih =>
    obtain ⟨k1, v1⟩ := kv
    simp only [OMap.erase]
    by_cases h1 : k1 = k
    · subst h1
      rw [if_pos rfl, OMap.find?, if_neg h]
    · rw [if_neg h1, OMap.find?, OMap.find?]
      split_ifs with h2
      · rfl
      · exact ih

/-! Track-count lemmas for claim C1. -/

theorem trackCountOf_addTrackCount (tc : TrackCounts) (p1 p2 : String) (t : Int) (p : String) :
    trackCountOf (addTrackCount tc p1 p2 t) p
      = trackCountOf tc p + (if p1 = p then 1 else 0) := by
  unfold trackCountOf addTrackCount
  cases h : tc.find? p1 with
  | some r =>
    rw [OMap.find?_set]
    by_cases hpq : p1 = p
    · subst hpq
      simp [h]
    · simp [hpq]
  | none =>
    rw [OMap.find?_set]
    by_cases hpq : p1 = p
    · subst hpq
      simp [h]
    · simp [hpq]

theorem trackCountOf_processEvent (tc : TrackCounts) (e : InteractionEvent) (p : String) :
    trackCountOf (processEvent tc e) p
      = trackCountOf tc p + (if e.proteinA = p then 1 else 0)
        + (if e.proteinB = p then 1 else 0) := by
  unfold processEvent
  rw [trackCountOf_addTrackCount, trackCountOf_addTrackCount]

theorem trackCountOf_foldl (events : List InteractionEvent) (tc : TrackCounts) (p : String) :
    trackCountOf (events.foldl processEvent tc) p
      = trackCountOf tc p + (occurrenceCount p events : Int) := by
  induction events generalizing tc with
  | nil => simp [occurrenceCount]
  | cons e es ih =>
    rw [List.foldl_cons, ih, trackCountOf_processEvent]
    unfold occurrenceCount
    simp only [List.countP_cons, decide_eq_true_eq]
    push_cast
    split_ifs <;> omega

/-- Claim C1, amended: `addTrackCount` increments `trackCount` on every
event side naming the participant — also when the partner is already in the
partner map — so after the event loop a participant's count equals its
number of event occurrences (counting both sides of each event), not its
number of distinct partners. -/
theorem claim_C1_amended (events : List InteractionEvent) (p : String) :
    trackCountOf (processEvents (sortEvents events)) p = (occurrenceCount p events : Int) := by
  unfold processEvents
  rw [trackCountOf_foldl]
  have hperm : List.Perm (sortEvents events) events := List.perm_insertionSort eventLe events
  unfold occurrenceCount
  rw [hperm.countP_eq, hperm.countP_eq]
  simp [trackCountOf, OMap.find?]

/-- Claim C1 is false of the code: two events of the same pair leave
participant `A` with `interactionCount` 2 but only one distinct partner, so
with duplicate removal disabled the final count differs from the
distinct-partner degree. -/
theorem claim_C1_counterexample :
    trackCountOf (buildTrackCounts evs1 cfg1) "A" = 2
    ∧ ((buildTrackCounts evs1 cfg1).find? "A").map (fun r => r.interactions.length) = some 1 := by
  constructor
  · decide
  · decide

/-- Claim C2, amended: the threshold filter tests `trackCount` (the event
occurrence count), so every surviving participant record satisfies
`minimumInteractionCount ≤ trackCount`; the length of its interaction list
(its distinct-partner degree) can still be smaller. -/
theorem claim_C2_amended (events : List InteractionEvent) (cfg : Config) (p : String)
    (r : TrackRec) (h : (buildTrackCounts events cfg).find? p = some r) :
    cfg.minimumInteractionCount ≤ r.trackCount := by
  have hmem : (p, r) ∈ buildTrackCounts events cfg := OMap.mem_of_find? h
  unfold buildTrackCounts removeSmallerTrackCounts at hmem
  have hpred := (List.mem_filter.mp hmem).2
  simp only [Bool.not_eq_eq_eq_not, Bool.not_true, decide_eq_false_iff_not, not_lt] at hpred
  exact hpred

/-- Witness for the amended claim C2 at a concrete surviving participant. -/
theorem claim_C2_amended_witness :
    (buildTrackCounts evs2 defaultConfig).find? "A" = some ⟨3, [("B", 3)]⟩
    ∧ defaultConfig.minimumInteractionCount ≤ (TrackRec.mk 3 [("B", 3)]).trackCount :=
  ⟨by decide, claim_C2_amended evs2 defaultConfig "A" ⟨3, [("B", 3)]⟩ (by decide)⟩

/-- Claim C2 is false of the code: three repeated events of one pair give
both participants `trackCount` 3, so they survive the threshold-3 filter,
yet each output track has an interaction list of length 1 < 3. -/
theorem claim_C2_counterexample :
    defaultConfig.minimumInteractionCount = 3
    ∧ (convertInteractionEventsToTracks evs2 defaultConfig).map
        (fun t => t.interactions.length) = [1, 1] := by
  constructor
  · decide
  · decide

/-- Claim C3: when A holds B as a partner, B is present, and A's live count
is strictly below B's, the duplicate-resolution step removes B from A's
partner map and decrements A's count while leaving B's record untouched;
and in Scenario C (X of degree 5, Y of degree 2, sharing an edge) the full
pass removes X from Y's partner list, decrements Y's count from 2 to 1, and
X keeps Y. -/
theorem claim_C3 :
    (∀ (tc : TrackCounts) (pA pB : String) (ra rb : TrackRec),
      tc.find? pA = some ra → tc.find? pB = some rb → pA ≠ pB →
      ra.interactions.keys.Nodup → ra.trackCount < rb.trackCount →
      (removeDuplicateInteraction tc pA pB).find? pA
          = some ⟨ra.trackCount - 1, ra.interactions.erase pB⟩
        ∧ (removeDuplicateInteraction tc pA pB).find? pB = some rb
        ∧ (ra.interactions.erase pB).find? pB = none)
    ∧ (trackCountOf (processEvents (sortEvents evsC)) "X" = 5
       ∧ trackCountOf (processEvents (sortEvents evsC)) "Y" = 2
       ∧ (removeDuplicateInteractionsPass (processEvents (sortEvents evsC))).find? "Y"
           = some ⟨1, [("Z", 6)]⟩
       ∧ ((removeDuplicateInteractionsPass (processEvents (sortEvents evsC))).find? "X").map
           (fun r => r.interactions.contains "Y") = some true) := by
  constructor
  · intro tc pA pB ra rb hA hB hne hnd hlt
    unfold removeDuplicateInteraction
    rw [hA, hB]
    dsimp only
    rw [if_pos hlt]
    refine ⟨?_, ?_, OMap.find?_erase_self hnd⟩
    · rw [OMap.find?_set]
      simp
    · rw [OMap.find?_set, if_neg hne]
      exact hB
  · exact ⟨by decide, by decide, by decide, by decide⟩

/-! Key-list lemmas: the participant enumeration order is first-seen
insertion order, and the duplicate-resolution pass never changes it. -/

theorem keys_addTrackCount (tc : TrackCounts) (p1 p2 : String) (t : Int) :
    (addTrackCount tc p1 p2 t).keys = insertFirstSeen tc.keys p1 := by
  unfold addTrackCount insertFirstSeen
  cases h : tc.find? p1 with
  | some r =>
    have hmem : p1 ∈ tc.keys := OMap.contains_iff.mp (by simp [OMap.contains, h])
    rw [OMap.keys_set, if_pos hmem]
  | none =>
    have hmem : p1 ∉ tc.keys := by
      intro hm
      have hc := OMap.contains_iff.mpr hm
      simp [OMap.contains, h] at hc
    rw [OMap.keys_set, if_neg hmem]

theorem keys_processEvent (tc : TrackCounts) (e : InteractionEvent) :
    (processEvent tc e).keys
      = insertFirstSeen (insertFirstSeen tc.keys e.proteinA) e.proteinB := by
  unfold processEvent
  rw [keys_addTrackCount, keys_addTrackCount]

theorem keys_foldl_processEvent (events : List InteractionEvent) (tc : TrackCounts) :
    (events.foldl processEvent tc).keys
      = events.foldl (fun l e => insertFirstSeen (insertFirstSeen l e.proteinA) e.proteinB)
          tc.keys := by
  induction events generalizing tc with
  | nil => rfl
  | cons e es ih => rw [List.foldl_cons, List.foldl_cons, ih, keys_processEvent]

theorem keys_processEvents (events : List InteractionEvent) :
    (processEvents events).keys = firstSeenOrder events := by
  unfold processEvents firstSeenOrder
  rw [keys_foldl_processEvent]
  rfl

theorem keys_removeDuplicateInteraction (tc : TrackCounts) (pA pB : String) :
    (removeDuplicateInteraction tc pA pB).keys = tc.keys := by
  unfold removeDuplicateInteraction
  cases hA : tc.find? pA with
  | none => rfl
  | some ra =>
    cases hB : tc.find? pB with
    | none => rfl
    | some rb =>
      dsimp only
      split_ifs with hlt
      · have hmem : pA ∈ tc.keys := OMap.contains_iff.mp (by simp [OMap.contains, hA])
        rw [OMap.keys_set, if_pos hmem]
      · rfl

theorem keys_dupFold (L : List (String × Int)) (tc : TrackCounts) (pA : String) :
    ((L.foldl
        (fun acc kv =>
          if acc.contains kv.1 then removeDuplicateInteraction acc pA kv.1 else acc)
        tc)).keys = tc.keys := by
  induction L generalizing tc with
  | nil => rfl
  | cons kv L ih =>
    rw [List.foldl_cons, ih]
    split_ifs with h
    · rw [keys_removeDuplicateInteraction]
    · rfl

theorem keys_removeDupForProtein (tc : TrackCounts) (pA : String) :
    (removeDupForProtein tc pA).keys = tc.keys := by
  unfold removeDupForProtein
  cases h : tc.find? pA with
  | none => rfl
  | some ra => exact keys_dupFold ra.interactions tc pA

theorem keys_passFold (ks : List String) (tc : TrackCounts) :
    ((ks.foldl removeDupForProtein tc)).keys = tc.keys := by
  induction ks generalizing tc with
  | nil => rfl
  | cons k ks ih => rw [List.foldl_cons, ih, keys_removeDupForProtein]

theorem keys_removeDuplicateInteractionsPass (tc : TrackCounts) :
    (removeDuplicateInteractionsPass tc).keys = tc.keys := by
  unfold removeDuplicateInteractionsPass
  exact keys_passFold tc.keys tc

theorem keys_removeSmaller_sublist (tc : TrackCounts) (mc : Int) :
    List.Sublist (removeSmallerTrackCounts tc mc).keys tc.keys := by
  unfold removeSmallerTrackCounts OMap.keys
  exact (List.filter_sublist tc).map Prod.fst

theorem keys_buildTrackCounts_sublist (events : List InteractionEvent) (cfg : Config) :
    List.Sublist (buildTrackCounts events cfg).keys (firstSeenOrder (sortEvents events)) := by
  unfold buildTrackCounts
  by_cases hdup : cfg.removeDuplicateInteractions = "true"
  · simp only [hdup, if_pos]
    have h1 := keys_removeSmaller_sublist
      (removeDuplicateInteractionsPass (processEvents (sortEvents events)))
      cfg.minimumInteractionCount
    rw [keys_removeDuplicateInteractionsPass, keys_processEvents] at h1
    exact h1
  · simp only [hdup, if_neg, ite_false]
    have h1 := keys_removeSmaller_sublist (processEvents (sortEvents events))
      cfg.minimumInteractionCount
    rw [keys_processEvents] at h1
    exact h1

/-- Claim C4: the output track list is sorted descending by
`interactions.length`; tracks of equal length keep their relative order
(the filter at any fixed length is unchanged by the sort); participants are
enumerated in first-seen order; and Scenario B produces exactly
`P1, P2, P3, P4`. -/
theorem claim_C4 :
    (∀ (events : List InteractionEvent) (cfg : Config) (i j : Nat)
        (hi : i < (convertInteractionEventsToTracks events cfg).length)
        (hj : j < (convertInteractionEventsToTracks events cfg).length),
        i < j →
        ((convertInteractionEventsToTracks events cfg).get ⟨j, hj⟩).interactions.length ≤
          ((convertInteractionEventsToTracks events cfg).get ⟨i, hi⟩).interactions.length)
    ∧ (∀ (events : List InteractionEvent) (cfg : Config) (k : Nat),
        (convertInteractionEventsToTracks events cfg).filter
            (fun t => decide (t.interactions.length = k))
          = (pushedTracks (buildTrackCounts events cfg)).filter
              (fun t => decide (t.interactions.length = k)))
    ∧ (∀ (events : List InteractionEvent) (cfg : Config),
        List.Sublist (buildTrackCounts events cfg).keys (firstSeenOrder (sortEvents events)))
    ∧ convertInteractionEventsToTracks evsB cfgB = expectedTracksB := by
  refine ⟨?_, ?_, keys_buildTrackCounts_sublist, by decide⟩
  · intro events cfg i j hi hj hij
    have hs : List.Sorted trackGe
        (List.insertionSort trackGe (pushedTracks (buildTrackCounts events cfg))) :=
      List.sorted_insertionSort trackGe _
    exact hs.rel_get_of_lt (a := ⟨i, hi⟩) (b := ⟨j, hj⟩) hij
  · intro events cfg k
    have hpw : (((pushedTracks (buildTrackCounts events cfg)).filter
        (fun t => decide (t.interactions.length = k)))).Pairwise trackGe := by
      apply List.pairwise_of_forall_mem_list
      intro a ha b hb
      have hak := (List.mem_filter.mp ha).2
      have hbk := (List.mem_filter.mp hb).2
      simp only [decide_eq_true_eq] at hak hbk
      unfold trackGe
      rw [hak, hbk]
    have hsubl := List.sublist_insertionSort hpw
      (List.filter_sublist (pushedTracks (buildTrackCounts events cfg)))
    have h2 := hsubl.filter (fun t => decide (t.interactions.length = k))
    rw [List.filter_eq_self.mpr (fun a ha => (List.mem_filter.mp ha).2)] at h2
    have hlen :
        (((List.insertionSort trackGe (pushedTracks (buildTrackCounts events cfg))).filter
          (fun t => decide (t.interactions.length = k)))).length
        = (((pushedTracks (buildTrackCounts events cfg)).filter
          (fun t => decide (t.interactions.length = k)))).length :=
      ((List.perm_insertionSort trackGe (pushedTracks (buildTrackCounts events cfg))).filter
        (fun t => decide (t.interactions.length = k))).length_eq
    exact (h2.eq_of_length hlen.symm).symm

/-- Claim C5 evaluated against the code: `generateSettings` contains no
guard and no error path; with zero tracks it runs to completion and emits
`NaN` in the stroke width, radius, outer width, margins and inner
dimensions instead of raising any error. -/
theorem claim_C5 :
    (generateSettings [] defaultConfig sampleDims initialSettings).trackStrokeWidth = JSNum.nan
    ∧ (generateSettings [] defaultConfig sampleDims initialSettings).interactionPointRadius
        = JSNum.nan
    ∧ (generateSettings [] defaultConfig sampleDims initialSettings).outerWidth = JSNum.nan
    ∧ (generateSettings [] defaultConfig sampleDims initialSettings).outerHeight = JSNum.nan
    ∧ (generateSettings [] defaultConfig sampleDims initialSettings).trackLabelWidth = JSNum.nan
    ∧ (generateSettings [] defaultConfig sampleDims initialSettings).margin.left = JSNum.nan
    ∧ (generateSettings [] defaultConfig sampleDims initialSettings).innerWidth = JSNum.nan
    ∧ (generateSettings [] defaultConfig sampleDims initialSettings).innerHeight = JSNum.nan := by
  with_unfolding_all decide

/-- Claim C6 evaluated against the code: with one event and the default
threshold 3 no participant survives, `convertInteractionEventsToTracks`
returns the empty track list without raising anything, and the pipeline
continues into `generateSettings`, which emits `NaN` geometry. -/
theorem claim_C6 :
    convertInteractionEventsToTracks evs6 defaultConfig = []
    ∧ (generateSettings (convertInteractionEventsToTracks evs6 defaultConfig) defaultConfig
        sampleDims initialSettings).trackStrokeWidth = JSNum.nan := by
  constructor
  · decide
  · with_unfolding_all decide

/-- Truthiness of an optional row value, spelt out. -/
theorem jsTruthyStr_eq_true {o : Option String} :
    jsTruthyStr o = true ↔ ∃ v, o = some v ∧ v ≠ "" := by
  cases o with
  | none => simp [jsTruthyStr]
  | some s => simp [jsTruthyStr]

/-- Claim C7, amended: validation fails exactly when the row list is empty
or the first row's value under one of the three configured columns is
absent or the empty string (JavaScript falsiness, not mere column absence);
rows after the first are never inspected, and passing data is returned
unchanged. -/
theorem claim_C7_amended :
    (∀ (cfg : Config) (data : List Row),
      ((validateEventData cfg data).isOk = true ↔
        ∃ r0 rest, data = r0 :: rest
          ∧ (∃ v, r0.find? cfg.timePointColumn = some v ∧ v ≠ "")
          ∧ (∃ v, r0.find? cfg.proteinAColumn = some v ∧ v ≠ "")
          ∧ (∃ v, r0.find? cfg.proteinBColumn = some v ∧ v ≠ "")))
    ∧ (∀ (cfg : Config) (data : List Row),
        validateEventData cfg data = Except.ok data
          ∨ validateEventData cfg data
              = Except.error "Data loaded does not match config settings")
    ∧ (∀ (cfg : Config) (r0 : Row) (rest1 rest2 : List Row),
        (validateEventData cfg (r0 :: rest1)).isOk
          = (validateEventData cfg (r0 :: rest2)).isOk) := by
  refine ⟨?_, ?_, ?_⟩
  · intro cfg data
    cases data with
    | nil => simp [validateEventData, Except.isOk, Except.toBool]
    | cons r0 rest =>
      simp only [validateEventData]
      split_ifs with h
      · simp only [Except.isOk, Except.toBool, true_iff]
        refine ⟨r0, rest, rfl, ?_, ?_, ?_⟩ <;>
          [skip; skip; skip] <;>
          · rw [← jsTruthyStr_eq_true]
            simp only [Bool.and_eq_true] at h
            first
            | exact h.1.1
            | exact h.1.2
            | exact h.2
      · apply iff_of_false (by simp [Except.isOk, Except.toBool])
        rintro ⟨r1, rest1, heq, hv1, hv2, hv3⟩
        injection heq with heq1 heq2
        subst heq1
        apply h
        rw [Bool.and_eq_true, Bool.and_eq_true]
        exact ⟨⟨jsTruthyStr_eq_true.mpr hv1, jsTruthyStr_eq_true.mpr hv2⟩,
          jsTruthyStr_eq_true.mpr hv3⟩
  · intro cfg data
    cases data with
    | nil => right; rfl
    | cons r0 rest =>
      simp only [validateEventData]
      split_ifs
      · left; rfl
      · right; rfl
  · intro cfg r0 rest1 rest2
    simp only [validateEventData]
    split_ifs <;> rfl

/-- Claim C7 is false of the code as an "exactly when": a non-empty row
list whose first row has all three configured columns present still fails
validation when one of the values is the empty string. -/
theorem claim_C7_counterexample :
    (validateEventData defaultConfig [row7]).isOk = false
    ∧ ([row7] : List Row) ≠ []
    ∧ (row7.find? "Order").isSome = true
    ∧ (row7.find? "Protein A").isSome = true
    ∧ (row7.find? "Protein B").isSome = true := by
  refine ⟨by decide, by decide, by decide, by decide, by decide⟩

/-- From the failure of a negated boolean test, the test itself. -/
theorem bool_not_true_of_not {b : Bool} (h : ¬((!b) = true)) : b = true := by
  cases b
  · exact absurd rfl h
  · rfl

/-- A negated boolean test holding means the test fails. -/
theorem bool_eq_false_of_not_true {b : Bool} (h : (!b) = true) : b = false := by
  cases b
  · rfl
  · simp at h

/-- A boolean that is not true is false. -/
theorem bool_eq_false_of_ne_true {b : Bool} (h : ¬(b = true)) : b = false := by
  cases b
  · rfl
  · exact absurd rfl h

/-- The ratio range check, spelt out. -/
theorem ratioInRange_eq_true {x : Option Rat} :
    ratioInRange x = true ↔ ∃ q, x = some q ∧ 0 < q ∧ q ≤ 1 := by
  cases x with
  | none => simp [ratioInRange]
  | some q => simp [ratioInRange, and_assoc]

/-- JavaScript falsiness of an optional numeric field, spelt out. -/
theorem optFalsy_eq_true {x : Option Rat} :
    optFalsy x = true ↔ x = none ∨ x = some 0 := by
  cases x with
  | none => simp [optFalsy, jsTruthyQ]
  | some q => simp [optFalsy, jsTruthyQ]

/-- The positivity check, spelt out. -/
theorem optPositive_eq_true {x : Option Rat} :
    optPositive x = true ↔ ∃ w, x = some w ∧ 0 < w := by
  cases x with
  | none => simp [optPositive]
  | some q => simp [optPositive]

/-- Claim C8, amended: `validateConfig` accepts exactly the stated ranges
for `screenProportion`, the threshold and the column names, but the ratio
checks are skipped whenever the ratio is falsy (`null` or `0`) or the
corresponding explicit outer dimension override is positive — an
out-of-range `xRatio` with a positive `outerWidth` passes. -/
theorem claim_C8_amended (cfg : Config) (sel : Bool) :
    (validateConfig cfg sel).isOk = true ↔
      ((0 < cfg.screenProportion ∧ cfg.screenProportion ≤ 1)
       ∧ ((∃ q, cfg.xRatio = some q ∧ 0 < q ∧ q ≤ 1)
          ∨ (cfg.xRatio = none ∨ cfg.xRatio = some 0)
          ∨ (∃ w, cfg.outerWidth = some w ∧ 0 < w))
       ∧ ((∃ q, cfg.yRatio = some q ∧ 0 < q ∧ q ≤ 1)
          ∨ (cfg.yRatio = none ∨ cfg.yRatio = some 0)
          ∨ (∃ h, cfg.outerHeight = some h ∧ 0 < h))
       ∧ 1 ≤ cfg.minimumInteractionCount
       ∧ (cfg.timePointColumn ≠ "" ∧ cfg.proteinAColumn ≠ "" ∧ cfg.proteinBColumn ≠ "")
       ∧ sel = false) := by
  constructor
  · intro hok
    unfold validateConfig at hok
    split_ifs at hok with h1 h2 h3 h4 h5 h6
    · simp [Except.isOk, Except.toBool] at hok
    · simp [Except.isOk, Except.toBool] at hok
    · simp [Except.isOk, Except.toBool] at hok
    · simp [Except.isOk, Except.toBool] at hok
    · simp [Except.isOk, Except.toBool] at hok
    · simp [Except.isOk, Except.toBool] at hok
    · have hb1 := bool_not_true_of_not h1
      have hb2 := bool_not_true_of_not h2
      have hb3 := bool_not_true_of_not h3
      have hb4 := bool_not_true_of_not h4
      have hb5 := bool_not_true_of_not h5
      have hb6 := bool_eq_false_of_ne_true h6
      rw [Bool.and_eq_true, decide_eq_true_eq, decide_eq_true_eq] at hb1
      rw [Bool.or_eq_true, Bool.or_eq_true] at hb2 hb3
      rw [decide_eq_true_eq] at hb4
      rw [Bool.and_eq_true, Bool.and_eq_true] at hb5
      obtain ⟨⟨hg1, hg2⟩, hg3⟩ := hb5
      have hn1 := decide_eq_false_iff_not.mp (bool_eq_false_of_not_true hg1)
      have hn2 := decide_eq_false_iff_not.mp (bool_eq_false_of_not_true hg2)
      have hn3 := decide_eq_false_iff_not.mp (bool_eq_false_of_not_true hg3)
      refine ⟨hb1, ?_, ?_, hb4, ⟨hn1, hn2, hn3⟩, hb6⟩
      · rcases hb2 with (h | h) | h
        · exact Or.inl (ratioInRange_eq_true.mp h)
        · exact Or.inr (Or.inl (optFalsy_eq_true.mp h))
        · exact Or.inr (Or.inr (optPositive_eq_true.mp h))
      · rcases hb3 with (h | h) | h
        · exact Or.inl (ratioInRange_eq_true.mp h)
        · exact Or.inr (Or.inl (optFalsy_eq_true.mp h))
        · exact Or.inr (Or.inr (optPositive_eq_true.mp h))
  · rintro ⟨⟨hsp1, hsp2⟩, hx, hy, hmin, ⟨hc1, hc2, hc3⟩, hsel⟩
    have hbx : (ratioInRange cfg.xRatio || optFalsy cfg.xRatio
        || optPositive cfg.outerWidth) = true := by
      rcases hx with h | h | h
      · simp [ratioInRange_eq_true.mpr h]
      · simp [optFalsy_eq_true.mpr h]
      · simp [optPositive_eq_true.mpr h]
    have hby : (ratioInRange cfg.yRatio || optFalsy cfg.yRatio
        || optPositive cfg.outerHeight) = true := by
      rcases hy with h | h | h
      · simp [ratioInRange_eq_true.mpr h]
      · simp [optFalsy_eq_true.mpr h]
      · simp [optPositive_eq_true.mpr h]
    unfold validateConfig
    rw [if_neg (by simp [hsp1, hsp2]), if_neg (by simp [hbx]), if_neg (by simp [hby]),
      if_neg (by simp [hmin]), if_neg (by simp [hc1, hc2, hc3]), if_neg (by simp [hsel])]
    rfl

/-- Claim C8 is false of the code: `xRatio = 5` is far outside `(0, 1]`,
yet validation succeeds because `outerWidth` is positive. -/
theorem claim_C8_counterexample :
    (validateConfig cfg8 false).isOk = true
    ∧ cfg8.xRatio = some 5
    ∧ ¬((5 : Rat) ≤ 1) := by
  refine ⟨by with_unfolding_all decide, rfl, by norm_num⟩

/-- Claim C9: the shared point radius / stroke width equals
`min(round(outerWidth / (maxOrder * 5)), round(outerHeight / (trackCount * 8)))`
whenever the outer dimensions are positive overrides and the order maximum
and track count are nonzero (so that both divisions are finite). -/
theorem claim_C9 (tracks : List Track) (cfg : Config) (dims : ScreenDimensions)
    (s : Settings) (ow oh : Rat) (mtp : Int)
    (hW : cfg.outerWidth = some ow) (hw0 : 0 < ow)
    (hH : cfg.outerHeight = some oh) (hh0 : 0 < oh)
    (hmtp : getTimePointSpanMax tracks = some mtp) (hm0 : mtp ≠ 0)
    (hlen : tracks.length ≠ 0) :
    (generateSettings tracks cfg dims s).trackStrokeWidth
      = JSNum.num (Min.min (JSNum.roundQ (ow / ((mtp : Rat) * 5)))
          (JSNum.roundQ (oh / ((tracks.length : Rat) * 8)))) := by
  have hwne : ow ≠ 0 := ne_of_gt hw0
  have hhne : oh ≠ 0 := ne_of_gt hh0
  have hOW : computedOuterWidth tracks cfg dims = JSNum.num ow := by
    unfold computedOuterWidth
    rw [hW]
    simp [jsTruthyQ, optNum, hwne]
  have hOH : computedOuterHeight tracks cfg dims = JSNum.num oh := by
    unfold computedOuterHeight
    rw [hH]
    simp [jsTruthyQ, optNum, hhne]
  have hMTP : maxTimePointNum tracks = JSNum.num (mtp : Rat) := by
    unfold maxTimePointNum
    rw [hmtp]
  have hm5 : ((mtp : Rat) * 5) ≠ 0 := by
    apply mul_ne_zero
    · exact Int.cast_ne_zero.mpr hm0
    · norm_num
  have hl8 : ((tracks.length : Rat) * 8) ≠ 0 := by
    apply mul_ne_zero
    · exact Nat.cast_ne_zero.mpr hlen
    · norm_num
  unfold generateSettings
  simp only [hOW, hOH, hMTP, JSNum.mul, JSNum.div, JSNum.round, JSNum.minJS,
    if_neg hm5, if_neg hl8]

/-- Witness for claim C9 at a concrete track list and configuration. -/
theorem claim_C9_witness :
    cfgW.outerWidth = some 500 ∧ (0 : Rat) < 500
    ∧ cfgW.outerHeight = some 300 ∧ (0 : Rat) < 300
    ∧ getTimePointSpanMax tracksW = some 2 ∧ (2 : Int) ≠ 0
    ∧ tracksW.length ≠ 0
    ∧ (generateSettings tracksW cfgW sampleDims initialSettings).trackStrokeWidth
        = JSNum.num (Min.min (JSNum.roundQ ((500 : Rat) / (((2 : Int) : Rat) * 5)))
            (JSNum.roundQ ((300 : Rat) / ((tracksW.length : Rat) * 8)))) :=
  ⟨rfl, by norm_num, rfl, by norm_num, by decide, by decide, by decide,
    claim_C9 tracksW cfgW sampleDims initialSettings 500 300 2 rfl (by norm_num) rfl
      (by norm_num) (by decide) (by decide) (by decide)⟩

set_option maxRecDepth 40000 in
/-- Claim C10: `clear` resets the event list, participant records, track
list, spans and scales but leaves every `settings` field untouched;
`setMaxProteinNameLength` only ever raises `maxTrackNameLength`; and after
an 11-character name in one cycle, a second cycle whose names are all
shorter still computes the label width from 11. -/
theorem claim_C10 :
    (∀ st : ModuleState, (clear st).settings = st.settings)
    ∧ (∀ st : ModuleState,
        (clear st).interactionEvents = [] ∧ (clear st).trackCounts = []
        ∧ (clear st).tracks = [] ∧ (clear st).xSpan = none ∧ (clear st).ySpan = none
        ∧ (clear st).xScale = false ∧ (clear st).yScale = false
        ∧ (clear st).canvasArea = false ∧ (clear st).graphArea = false)
    ∧ (∀ (s : Settings) (p : String),
        (setMaxProteinNameLength s p).maxTrackNameLength
          = Max.max s.maxTrackNameLength p.length)
    ∧ ((recordNameLengths initialSettings (sortEvents evsLong)).maxTrackNameLength = 11
       ∧ (recordNameLengths
            ((clear (sampleState
              (recordNameLengths initialSettings (sortEvents evsLong)))).settings)
            (sortEvents evsShort)).maxTrackNameLength = 11
       ∧ (generateSettings tracks2 cfg1b sampleDims
            (recordNameLengths
              ((clear (sampleState
                (recordNameLengths initialSettings (sortEvents evsLong)))).settings)
              (sortEvents evsShort))).trackLabelWidth = JSNum.num (mkRat 627 4)) := by
  refine ⟨fun st => rfl,
    fun st => ⟨rfl, rfl, rfl, rfl, rfl, rfl, rfl, rfl, rfl⟩, ?_, ?_⟩
  · intro s p
    unfold setMaxProteinNameLength
    split_ifs with h
    · exact (Nat.max_eq_right (Nat.le_of_lt h)).symm
    · exact (Nat.max_eq_left (Nat.le_of_not_lt h)).symm
  · refine ⟨?_, ?_, ?_⟩
    · with_unfolding_all decide
    · with_unfolding_all decide
    · with_unfolding_all decide

end MultiComplex
